import Mathlib

/-!
Verification development for the tree-walking interpreter in
`src/interpreter/interpreter.py`, `src/parser/runtime.py` and the AST of
`src/parser/ast.py`.

Modelling conventions (shallow embedding of the Python source):

* The mutable Python object graph is made explicit: environments, lists,
  dictionaries and instances live in heaps inside `IState` and values hold
  indices into those heaps, mirroring Python's reference semantics.
* Python exceptions become explicit outcomes (`Res`).  The source defines its
  own `RuntimeError` class in `interpreter.py` (shadowing the builtin), while
  `runtime.py` raises the *builtin* `RuntimeError`; the two are distinct
  classes, so the model keeps them apart as `Res.errS` (the custom class) and
  `Res.errB` (the builtin).  Any other host exception (`AttributeError`,
  `TypeError`, `IndexError`, an escaping `ReturnException`, ...) is
  `Res.hostE`.  `Res.ret` models the source's `ReturnException`.
* Recursion through the evaluator is bounded by an explicit fuel parameter;
  exhaustion yields the artificial outcome `Res.timeout`, which no theorem
  ever equates with real behaviour.
* Python numbers: `int` is modelled exactly by `Int`; `bool` is a separate
  `Value` constructor, but wherever the source asks `isinstance(x, int)` or
  `isinstance(x, (int, float))`, booleans qualify (Python's `bool` is a
  subclass of `int`) and are read as 0/1.  A `float` is modelled as an exact
  fraction `num/den` (`den > 0`); IEEE-754 rounding and shortest-round-trip
  printing are outside the model, and no theorem below depends on a
  non-integral float.
* `str(x)` / `repr(x)` of a class instance (`LoxInstance`), and `repr` of
  function, builtin and class objects, include the object's memory address in
  Python; the model returns `none` for those, and evaluation paths that would
  need such a string surface the marker outcome `hostE "unmodelled-str"`.
-/

/-- Literal payloads that can sit inside an AST `Literal` node (the parser
produces booleans, numbers and strings; `nilL` mirrors a `Literal(None)`,
which `visit_literal_expr` would pass through unchanged). -/
inductive LitVal where
  | nilL
  | boolL (b : Bool)
  | intL (n : Int)
  | floatL (num den : Int)
  | strL (s : String)
deriving DecidableEq

/-- Binary operator token kinds used by `Binary` nodes. -/
inductive BinOp where
  | minus | slash | star | plus | modulo | expo
  | gt | ge | lt | le | bangEq | eqEq
deriving DecidableEq

/-- Unary operator token kinds. -/
inductive UnOp where
  | bang | neg
deriving DecidableEq

mutual

/-- Function declaration node (`FunctionStmt` in `ast.py`): a name, the
parameter names, and the body statements. -/
inductive FuncDecl where
  | mk (name : String) (params : List String) (body : List Stmt)

/-- Expression nodes of `ast.py`.  Token fields are reduced to the lexemes
the interpreter actually reads. -/
inductive Expr where
  | lit (v : LitVal)
  | binary (l : Expr) (op : BinOp) (r : Expr)
  | logical (l : Expr) (isOr : Bool) (r : Expr)
  | unary (op : UnOp) (e : Expr)
  | grouping (e : Expr)
  | var (name : String)
  | assign (name : String) (value : Expr)
  | call (callee : Expr) (args : List Expr)
  | get (obj : Expr) (name : String)
  | set (obj : Expr) (name : String) (value : Expr)
  | listE (elems : List Expr)
  | dictE (pairs : List (Expr × Expr))
  | indexE (obj : Expr) (idx : Expr)
  | indexAssignE (obj : Expr) (idx : Expr) (value : Expr)
  | thisE
  | superE (method : String)
  | newE (className : String) (args : List Expr)

/-- Statement nodes of `ast.py` (the `input` statement is omitted: it only
reads external text and no claim mentions it). -/
inductive Stmt where
  | exprS (e : Expr)
  | printS (e : Expr)
  | block (stmts : List Stmt)
  | ifS (cond : Expr) (thenB : Stmt) (elseB : Option Stmt)
  | whileS (cond : Expr) (body : Stmt)
  | funDecl (f : FuncDecl)
  | retS (value : Option Expr)
  | forEach (varName : String) (iter : Expr) (body : Stmt)
  | classS (name : String) (superName : Option String) (methods : List FuncDecl)

end

/-- Name of a function declaration. -/
def FuncDecl.name : FuncDecl → String
  | .mk n _ _ => n

/-- Parameter list of a function declaration. -/
def FuncDecl.params : FuncDecl → List String
  | .mk _ p _ => p

/-- Body of a function declaration. -/
def FuncDecl.body : FuncDecl → List Stmt
  | .mk _ _ b => b

/-- A user `Function` object: its declaration plus the heap index of the
environment captured at definition time (`Function.__init__` in the source). -/
structure FuncData where
  decl : FuncDecl
  closure : Nat

/-- A `LoxClass` from `runtime.py`: name, optional superclass (single
inheritance, structurally acyclic), and the method table built by
`visit_class_stmt` (later duplicate method names overwrite earlier ones, as
in a Python dict). -/
inductive LoxClass where
  | mk (name : String) (superclass : Option LoxClass)
      (methods : List (String × FuncData))

/-- Name of a class. -/
def LoxClass.name : LoxClass → String
  | .mk n _ _ => n

/-- Superclass of a class. -/
def LoxClass.superclass : LoxClass → Option LoxClass
  | .mk _ s _ => s

/-- Method table of a class. -/
def LoxClass.methods : LoxClass → List (String × FuncData)
  | .mk _ _ m => m

/-- The host operation baked into a `BuiltinFunction` value.  The globals
`append`/`pop`/`length` come from `define_globals`; `mAppend`/`mPop` are the
lambdas that `visit_get_expr` wraps around a concrete list object (they close
over that list, hence carry its heap index). -/
inductive HostFn where
  | gAppend
  | gPop
  | gLength
  | mAppend (lid : Nat)
  | mPop (lid : Nat)
deriving DecidableEq

/-- Runtime values.  Aggregates (`list`, `dict`, `inst`) are references into
the heaps of `IState`, mirroring Python's sharing semantics. -/
inductive Value where
  | nil
  | bool (b : Bool)
  | int (n : Int)
  | float (num den : Int)
  | str (s : String)
  | list (lid : Nat)
  | dict (did : Nat)
  | func (fd : FuncData)
  | builtin (arity : Nat) (fn : HostFn)
  | classV (c : LoxClass)
  | inst (iid : Nat)

/-- One `Environment` object: its own bindings (insertion ordered) and the
heap index of the enclosing environment, if any.  Environments are only ever
created enclosing an already-existing one, so the enclosing index is always
strictly smaller than the environment's own index. -/
structure EnvData where
  vals : List (String × Value)
  enclosing : Option Nat

/-- One `LoxInstance`: its class and its mutable field map. -/
structure InstData where
  klass : LoxClass
  fields : List (String × Value)

/-- The interpreter state: the four heaps, the current-environment register
(`Interpreter.environment`; the globals always live at index 0), and the
lines printed so far. -/
structure IState where
  envs : List EnvData
  lists : List (List Value)
  dicts : List (List (Value × Value))
  insts : List InstData
  current : Nat
  output : List String

/-- Evaluation outcomes; see the module comment for the exception mapping. -/
inductive Res (α : Type) where
  | ok (a : α)
  | errS (msg : String)
  | errB (msg : String)
  | hostE (msg : String)
  | ret (v : Value)
  | timeout

/-- Propagate a non-`ok` outcome unchanged while changing the payload type. -/
def Res.castErr : Res α → Res β
  | .ok _ => .timeout
  | .errS m => .errS m
  | .errB m => .errB m
  | .hostE m => .hostE m
  | .ret v => .ret v
  | .timeout => .timeout

/-! ## Heap and association-list helpers -/

/-- Insert or overwrite a key in an insertion-ordered association list,
mirroring Python dict assignment (an existing key keeps its position). -/
def assocSet (l : List (String × Value)) (k : String) (v : Value) :
    List (String × Value) :=
  match l with
  | [] => [(k, v)]
  | (k0, v0) :: rest =>
    if k0 = k then (k0, v) :: rest else (k0, v0) :: assocSet rest k v

/-- Look up a key in an association list. -/
def assocGet (l : List (String × Value)) (k : String) : Option Value :=
  match l with
  | [] => none
  | (k0, v0) :: rest => if k0 = k then some v0 else assocGet rest k

/-- Read a heap list (a dangling index, never produced by the evaluator,
reads as empty). -/
def getListH (s : IState) (i : Nat) : List Value :=
  (s.lists.get? i).getD []

/-- Overwrite a heap list. -/
def setListH (s : IState) (i : Nat) (xs : List Value) : IState :=
  { s with lists := s.lists.set i xs }

/-- Allocate a fresh heap list, returning its index. -/
def allocList (s : IState) (xs : List Value) : Nat × IState :=
  (s.lists.length, { s with lists := s.lists ++ [xs] })

/-- Read a heap dictionary. -/
def getDictH (s : IState) (i : Nat) : List (Value × Value) :=
  (s.dicts.get? i).getD []

/-- Overwrite a heap dictionary. -/
def setDictH (s : IState) (i : Nat) (xs : List (Value × Value)) : IState :=
  { s with dicts := s.dicts.set i xs }

/-- Allocate a fresh heap dictionary. -/
def allocDict (s : IState) (xs : List (Value × Value)) : Nat × IState :=
  (s.dicts.length, { s with dicts := s.dicts ++ [xs] })

/-- Read an environment from the heap. -/
def getEnvH (s : IState) (i : Nat) : EnvData :=
  (s.envs.get? i).getD ⟨[], none⟩

/-- Allocate a fresh environment (`Environment(enclosing)` in the source);
its index is larger than every existing index. -/
def allocEnv (s : IState) (e : EnvData) : Nat × IState :=
  (s.envs.length, { s with envs := s.envs ++ [e] })

/-- Read an instance from the heap. -/
def getInstH (s : IState) (i : Nat) : Option InstData :=
  s.insts.get? i

/-- Allocate a fresh instance (`LoxInstance(self)` in `LoxClass.call`). -/
def allocInst (s : IState) (d : InstData) : Nat × IState :=
  (s.insts.length, { s with insts := s.insts ++ [d] })

/-- `Environment.define` on the environment at heap index `i`: insert or
overwrite in that scope only. -/
def envDefine (s : IState) (i : Nat) (k : String) (v : Value) : IState :=
  { s with envs := s.envs.set i { getEnvH s i with vals := assocSet (getEnvH s i).vals k v } }

/-! ## Python numeric view

`isinstance(x, (int, float))` accepts `bool` (a subclass of `int`), reading
`True`/`False` as 1/0.  A float is an exact fraction with positive
denominator. -/

/-- Numeric view of a value: `none` when the value is not a Python number. -/
inductive NumV where
  | i (n : Int)
  | f (num den : Int)
deriving DecidableEq

/-- Values accepted by `isinstance(x, (int, float))`. -/
def toNum? : Value → Option NumV
  | .bool b => some (.i (if b then 1 else 0))
  | .int n => some (.i n)
  | .float a b => some (.f a b)
  | _ => none

/-- Values accepted by `isinstance(x, int)` (used for indices and for
string/list repetition): integers and booleans, not floats. -/
def toInt? : Value → Option Int
  | .bool b => some (if b then 1 else 0)
  | .int n => some n
  | _ => none

/-- Numerator/denominator view of a number (denominator 1 for integers). -/
def NumV.pair : NumV → Int × Int
  | .i n => (n, 1)
  | .f a b => (a, b)

/-- Whether a number equals zero. -/
def NumV.isZero (x : NumV) : Bool :=
  x.pair.1 = 0

/-- Build a float value with a positive denominator. -/
def mkFloat (a b : Int) : NumV :=
  if b < 0 then .f (-a) (-b) else .f a b

/-- Lift an exact binary operation: an `int` result only when both operands
are `int`-like, otherwise a `float`, as in Python arithmetic promotion. -/
def NumV.lift2 (fi : Int → Int → Int) (fq : Int → Int → Int → Int → Int × Int)
    (x y : NumV) : NumV :=
  match x, y with
  | .i a, .i b => .i (fi a b)
  | _, _ =>
    let (a, b) := x.pair
    let (c, d) := y.pair
    let (n, m) := fq a b c d
    mkFloat n m

/-- Python `+` on numbers. -/
def NumV.add : NumV → NumV → NumV :=
  NumV.lift2 (· + ·) (fun a b c d => (a * d + c * b, b * d))

/-- Python `-` on numbers. -/
def NumV.sub : NumV → NumV → NumV :=
  NumV.lift2 (· - ·) (fun a b c d => (a * d - c * b, b * d))

/-- Python `*` on numbers. -/
def NumV.mul : NumV → NumV → NumV :=
  NumV.lift2 (· * ·) (fun a b c d => (a * c, b * d))

/-- Python `/` on numbers: true division, always a float. -/
def NumV.div (x y : NumV) : NumV :=
  let (a, b) := x.pair
  let (c, d) := y.pair
  mkFloat (a * d) (b * c)

/-- Python `%` on numbers: floor-based remainder (sign of the divisor). -/
def NumV.mod (x y : NumV) : NumV :=
  match x, y with
  | .i a, .i b => .i (Int.fmod a b)
  | _, _ =>
    let (a, b) := x.pair
    let (c, d) := y.pair
    let fl := Int.fdiv (a * d) (b * c)
    (NumV.f a b).sub ((NumV.f c d).mul (.f fl 1))

/-- Numeric equality across int/float (Python `==`). -/
def NumV.eq (x y : NumV) : Bool :=
  let (a, b) := x.pair
  let (c, d) := y.pair
  a * d = c * b

/-- Numeric strict order across int/float (denominators are positive). -/
def NumV.lt (x y : NumV) : Bool :=
  let (a, b) := x.pair
  let (c, d) := y.pair
  a * d < c * b

/-- Numeric non-strict order. -/
def NumV.le (x y : NumV) : Bool :=
  let (a, b) := x.pair
  let (c, d) := y.pair
  a * d ≤ c * b

/-- Turn a numeric result back into a value. -/
def NumV.toValue : NumV → Value
  | .i n => .int n
  | .f a b => .float a b

/-- Python's `type(x).__name__` for the modelled value kinds. -/
def pyTypeName : Value → String
  | .nil => "NoneType"
  | .bool _ => "bool"
  | .int _ => "int"
  | .float _ _ => "float"
  | .str _ => "str"
  | .list _ => "list"
  | .dict _ => "dict"
  | .func _ => "Function"
  | .builtin _ _ => "BuiltinFunction"
  | .classV _ => "LoxClass"
  | .inst _ => "LoxInstance"

/-! ## Python string conversion (`str`/`repr`) and `stringify` -/

/-- Join strings with a separator. -/
def joinSep (sep : String) : List String → String
  | [] => ""
  | [x] => x
  | x :: xs => x ++ sep ++ joinSep sep xs

/-- Left-pad a string with zeros to the given length. -/
def zpad (k : Nat) (t : String) : String :=
  String.mk (List.replicate (k - t.length) '0') ++ t

/-- Smallest `k ≤ 30` such that `num/den * 10^k` is an integer, if any. -/
def decExp (num den : Int) : Option Nat :=
  (List.range 31).find? fun k => (num * (10 : Int) ^ k) % den = 0

/-- Python `str`/`repr` of a float value `num/den` (`den > 0`): integral
floats print as `n.0`, finite-decimal fractions print their digits.  Actual
Python floats are dyadic, so the fallback branch is unreachable for values a
real run can produce; it is marked as such. -/
def pyFloatRepr (num den : Int) : String :=
  if num % den = 0 then toString (Int.fdiv num den) ++ ".0"
  else
    match decExp num den with
    | some k =>
      let a := Int.fdiv (num.natAbs * (10 : Int) ^ k) den.natAbs
      let ip := Int.fdiv a ((10 : Int) ^ k)
      let fp := Int.fmod a ((10 : Int) ^ k)
      (if num < 0 then "-" else "") ++ toString ip ++ "." ++ zpad k (toString fp)
    | none => "UNMODELLED-FLOAT(" ++ toString num ++ "/" ++ toString den ++ ")"

/-- Two-character lowercase hex of a byte-sized natural. -/
def hex2 (n : Nat) : String :=
  let dig := fun d => String.mk [(if d < 10 then Char.ofNat (48 + d) else Char.ofNat (87 + d))]
  dig (n / 16 % 16) ++ dig (n % 16)

/-- Python `repr` of one character inside a quoted string using quote
character `q`: escape the backslash, the quote and control characters. -/
def pyReprChar (q : Char) (c : Char) : String :=
  if c = '\\' then "\\\\"
  else if c = q then "\\" ++ String.mk [q]
  else if c = '\n' then "\\n"
  else if c = '\r' then "\\r"
  else if c = '\t' then "\\t"
  else if c.val < 32 ∨ c.val = 127 then "\\x" ++ hex2 c.toNat
  else String.mk [c]

/-- Python `repr` of a string: single quotes unless the string contains a
single quote but no double quote. -/
def pyReprStr (t : String) : String :=
  let hasSingle := t.data.any (· = '\'')
  let hasDouble := t.data.any (· = '"')
  let q : Char := if hasSingle ∧ ¬hasDouble then '"' else '\''
  String.mk [q] ++ joinSep "" (t.data.map (pyReprChar q)) ++ String.mk [q]

/-- Map a partial function over a list, failing if any element fails. -/
def optMap (f : α → Option String) : List α → Option (List String)
  | [] => some []
  | x :: xs =>
    match f x, optMap f xs with
    | some t, some ts => some (t :: ts)
    | _, _ => none

/-- Python `str(v)` (`top = true`) or `repr(v)` (`top = false`) of a value,
reading aggregates from the heap.  `none` marks the address-dependent cases
(instances always; functions, builtins and classes under `repr`, since they
define `__str__` but not `__repr__`) and fuel exhaustion on deep or cyclic
aggregates. -/
def pyToStr : Nat → Bool → IState → Value → Option String
  | 0, _, _, _ => none
  | _ + 1, _, _, .nil => some ("None")
  | _ + 1, _, _, .bool b => some (if b then "True" else "False")
  | _ + 1, _, _, .int n => some (toString n)
  | _ + 1, _, _, .float a b => some (pyFloatRepr a b)
  | _ + 1, top, _, .str t => some (if top then t else pyReprStr t)
  | _ + 1, top, _, .func fd =>
    if top then some ("<function " ++ fd.decl.name ++ ">") else none
  | _ + 1, top, _, .builtin _ _ =>
    if top then some ("<native function>") else none
  | _ + 1, top, _, .classV c => if top then some c.name else none
  | _ + 1, _, _, .inst _ => none
  | n + 1, _, s, .list lid =>
    match optMap (pyToStr n false s) (getListH s lid) with
    | some ts => some ("[" ++ joinSep ", " ts ++ "]")
    | none => none
  | n + 1, _, s, .dict did =>
    match optMap (fun p => match pyToStr n false s p.1, pyToStr n false s p.2 with
           | some a, some b => some (a ++ ": " ++ b)
           | _, _ => none) (getDictH s did) with
    | some ts => some ("\x7b" ++ joinSep ", " ts ++ "\x7d")
    | none => none

/-- Drop a trailing `".0"` (the `text.endswith(".0")` branch of `stringify`). -/
def stripDotZero (t : String) : String :=
  match t.data.reverse with
  | '0' :: '.' :: rest => String.mk rest.reverse
  | _ => t

/-- The interpreter's `stringify` rule, reading aggregates from the heap.
`none` again marks the address-dependent instance case (where the source
falls back to `str(value)`) and fuel exhaustion. -/
def stringify : Nat → IState → Value → Option String
  | 0, _, _ => none
  | _ + 1, _, .nil => some ("nil")
  | _ + 1, _, .bool b => some (if b then "true" else "false")
  | _ + 1, _, .int n => some (toString n)
  | _ + 1, _, .float a b => some (stripDotZero (pyFloatRepr a b))
  | _ + 1, _, .str t => some t
  | n + 1, s, .list lid =>
    match optMap (stringify n s) (getListH s lid) with
    | some ts => some ("[" ++ joinSep ", " ts ++ "]")
    | none => none
  | n + 1, s, .dict did =>
    match optMap (fun p => match stringify n s p.1, stringify n s p.2 with
           | some a, some b => some (a ++ ": " ++ b)
           | _, _ => none) (getDictH s did) with
    | some ts => some ("\x7b" ++ joinSep ", " ts ++ "\x7d")
    | none => none
  | _ + 1, _, .func fd => some ("<function " ++ fd.decl.name ++ ">")
  | _ + 1, _, .builtin _ _ => some ("<native function>")
  | _ + 1, _, .classV c => some c.name
  | _ + 1, _, .inst _ => none

/-! ## Truthiness and equality -/

/-- The interpreter's `is_truthy`, reading aggregate lengths from the heap. -/
def is_truthy (s : IState) : Value → Bool
  | .nil => false
  | .bool b => b
  | .int n => n ≠ 0
  | .float a _ => a ≠ 0
  | .str t => t.length > 0
  | .list lid => (getListH s lid).length > 0
  | .dict did => (getDictH s did).length > 0
  | _ => true

mutual

/-- Python `==` between two values, reading aggregates from the heap.
Numbers (including booleans) compare numerically across kinds; `None`, strings
and aggregates compare by content; instances compare by identity (heap
index).  `none` marks fuel exhaustion and the unmodelled same-kind
comparisons of function/builtin/class objects (Python compares those by
object identity, which the model does not track). -/
def pyEq : Nat → IState → Value → Value → Option Bool
  | 0, _, _, _ => none
  | n + 1, s, a, b =>
    match toNum? a, toNum? b with
    | some x, some y => some (x.eq y)
    | _, _ =>
      match a, b with
      | .nil, .nil => some true
      | .str t, .str u => some (t = u)
      | .inst i, .inst j => some (i = j)
      | .list l1, .list l2 => pyEqList n s (getListH s l1) (getListH s l2)
      | .dict d1, .dict d2 =>
        let p1 := getDictH s d1
        let p2 := getDictH s d2
        if p1.length = p2.length then pyEqDictIncl n s p1 p2 else some false
      | .func _, .func _ => none
      | .builtin _ _, .builtin _ _ => none
      | .classV _, .classV _ => none
      | _, _ => some false

/-- Elementwise list equality. -/
def pyEqList : Nat → IState → List Value → List Value → Option Bool
  | 0, _, _, _ => none
  | _ + 1, _, [], [] => some true
  | n + 1, s, x :: xs, y :: ys =>
    match pyEq n s x y with
    | some true => pyEqList n s xs ys
    | some false => some false
    | none => none
  | _ + 1, _, _, _ => some false

/-- Key-by-key inclusion of the first pair list in the second. -/
def pyEqDictIncl : Nat → IState → List (Value × Value) → List (Value × Value) → Option Bool
  | 0, _, _, _ => none
  | _ + 1, _, [], _ => some true
  | n + 1, s, (k, v) :: rest, p2 =>
    match pyDictFind n s p2 k with
    | .ok (some v2) =>
      match pyEq n s v v2 with
      | some true => pyEqDictIncl n s rest p2
      | some false => some false
      | none => none
    | .ok none => some false
    | _ => none

/-- Find the value stored under a key equal (Python `==`) to `k`. -/
def pyDictFind : Nat → IState → List (Value × Value) → Value → Res (Option Value)
  | 0, _, _, _ => .timeout
  | _ + 1, _, [], _ => .ok none
  | n + 1, s, (k0, v0) :: rest, k =>
    match pyEq n s k0 k with
    | some true => .ok (some v0)
    | some false => pyDictFind n s rest k
    | none => .hostE ("unmodelled-eq")

end

/-- The interpreter's `is_equal`: `None` equals only `None`, otherwise the
operands' native `==`. -/
def is_equal (n : Nat) (s : IState) (a b : Value) : Option Bool :=
  match a, b with
  | .nil, .nil => some true
  | .nil, _ => some false
  | _, _ => pyEq n s a b

/-- Python hashability test as used by dict operations: lists and dicts are
unhashable and raise a host `TypeError`. -/
def unhashable : Value → Bool
  | .list _ => true
  | .dict _ => true
  | _ => false

/-- Insert or overwrite a key in a dict pair list, Python style: an existing
equal key keeps its position, otherwise the pair is appended. -/
def pyDictInsert : Nat → IState → List (Value × Value) → Value → Value →
    Res (List (Value × Value))
  | 0, _, _, _, _ => .timeout
  | _ + 1, _, [], k, v => .ok [(k, v)]
  | n + 1, s, (k0, v0) :: rest, k, v =>
    match pyEq n s k0 k with
    | some true => .ok ((k0, v) :: rest)
    | some false =>
      match pyDictInsert n s rest k v with
      | .ok l => .ok ((k0, v0) :: l)
      | r => r
    | none => .hostE ("unmodelled-eq")

/-! ## Environment chain operations

`lookup_variable` and `assign_variable` in the evaluator, and
`Environment.get`/`Environment.assign`, all walk the same enclosing chain;
`locateFrom` is that shared walk, returning the heap index of the innermost
environment that binds the name.  Environments always enclose an environment
with a strictly smaller heap index, so a chain visits pairwise distinct
environments and `envs.length + 1` walk steps always suffice. -/

/-- Walk the enclosing chain starting at environment `i`, looking for `name`. -/
def locateFromAux (envs : List EnvData) : Nat → Nat → String → Option Nat
  | 0, _, _ => none
  | fuel + 1, i, name =>
    match envs.get? i with
    | none => none
    | some e =>
      if (assocGet e.vals name).isSome then some i
      else
        match e.enclosing with
        | some j => locateFromAux envs fuel j name
        | none => none

/-- Innermost environment in the chain from `i` that binds `name`. -/
def locateFrom (s : IState) (i : Nat) (name : String) : Option Nat :=
  locateFromAux s.envs (s.envs.length + 1) i name

/-- The evaluator's `lookup_variable`: first match along the chain from the
current environment, else the custom runtime error. -/
def lookup_variable (s : IState) (name : String) : Res Value :=
  match locateFrom s s.current name with
  | some i => .ok ((assocGet (getEnvH s i).vals name).getD .nil)
  | none => .errS ("Undefined variable '" ++ name ++ "'.")

/-- The evaluator's `assign_variable`: overwrite the first binding along the
chain; if no scope binds the name, **define it in the current environment**
(the explicitly commented `CHANGE` branch in the source, replacing the error). -/
def assign_variable (s : IState) (name : String) (v : Value) : IState :=
  match locateFrom s s.current name with
  | some i => envDefine s i name v
  | none => envDefine s s.current name v

/-- `Environment.get` (used by `visit_new_expr`): first match along the chain
from the given environment, else the custom runtime error. -/
def envGet (s : IState) (i : Nat) (name : String) : Res Value :=
  match locateFrom s i name with
  | some j => .ok ((assocGet (getEnvH s j).vals name).getD .nil)
  | none => .errS ("Undefined variable '" ++ name ++ "'.")

/-- `Environment.assign`: overwrite the first binding along the chain, else
the custom runtime error.  (No evaluator path calls this method: assignment
expressions go through `assign_variable` above.) -/
def envAssign (s : IState) (i : Nat) (name : String) (v : Value) :
    Res Unit × IState :=
  match locateFrom s i name with
  | some j => (.ok (), envDefine s j name v)
  | none => (.errS ("Undefined variable '" ++ name ++ "'."), s)

/-! ## Object model (`runtime.py`) -/

/-- `LoxClass.find_method`: own method table first, then the superclass
chain; `none` when the chain is exhausted. -/
def LoxClass.find_method : LoxClass → String → Option FuncData
  | .mk _ sup methods, name =>
    match (methods.find? (fun p => p.1 = name)).map Prod.snd with
    | some f => some f
    | none =>
      match sup with
      | some sc => sc.find_method name
      | none => none

/-- `Function.bind`: a fresh environment whose parent is the function's
closure, with `this` defined to the instance; the result is a new `Function`
over that environment. -/
def bindMethod (s : IState) (fd : FuncData) (iid : Nat) : FuncData × IState :=
  let (nid, s') := allocEnv s ⟨[("this", .inst iid)], some fd.closure⟩
  (⟨fd.decl, nid⟩, s')

/-- `LoxInstance.set`: unconditional insert/overwrite in the field map. -/
def instSet (s : IState) (iid : Nat) (name : String) (v : Value) : IState :=
  match getInstH s iid with
  | some d => { s with insts := s.insts.set iid { d with fields := assocSet d.fields name v } }
  | none => s

/-- `LoxInstance.get`: field first, then a method bound to the instance,
else the **builtin** `RuntimeError` (`runtime.py` does not import the
interpreter's custom error class). -/
def instGet (s : IState) (iid : Nat) (name : String) : Res Value × IState :=
  match getInstH s iid with
  | none => (.hostE ("dangling-instance"), s)
  | some d =>
    match assocGet d.fields name with
    | some v => (.ok v, s)
    | none =>
      match d.klass.find_method name with
      | some m =>
        let (fd, s') := bindMethod s m iid
        (.ok (.func fd), s')
      | none => (.errB ("Undefined property '" ++ name ++ "'."), s)

/-! ## Binary operator semantics (`visit_binary_expr` after operand evaluation) -/

/-- Negation of a number (unary minus; booleans negate as 0/1). -/
def NumV.negV : NumV → NumV
  | .i n => .i (-n)
  | .f a b => .f (-a) b

/-- Coerce an `int` result kind to `float` (for Python's float-typed results). -/
def NumV.asFloat : NumV → NumV
  | .i n => .f n 1
  | .f a b => .f a b

/-- Python `**` with an integer (or integral-float) exponent.  A negative
exponent yields a float (and a host `ZeroDivisionError` on a zero base); an
exponent that is not an integral number is outside the exact-fraction model. -/
def numPow (x y : NumV) : Res NumV :=
  let core : Int → Res NumV := fun e =>
    if 0 ≤ e then
      match x with
      | .i b => .ok (.i (b ^ e.toNat))
      | .f a b => .ok (mkFloat (a ^ e.toNat) (b ^ e.toNat))
    else
      let (a, b) := x.pair
      if a = 0 then .hostE ("ZeroDivisionError: 0.0 cannot be raised to a negative power")
      else .ok (mkFloat (b ^ (-e).toNat) (a ^ (-e).toNat))
  match y with
  | .i e => core e
  | .f a b =>
    if a % b = 0 then
      match core (Int.fdiv a b) with
      | .ok r => .ok r.asFloat
      | r => r
    else .hostE ("unmodelled-float-pow")

/-- Python string repetition `t * k` (non-positive counts give `""`). -/
def strRepeat (t : String) (k : Int) : String :=
  joinSep "" (List.replicate k.toNat t)

/-- Python list repetition contents. -/
def listRepeat (xs : List Value) (k : Int) : List Value :=
  List.flatten (List.replicate k.toNat xs)

/-- Python `<` on strings (lexicographic by code point). -/
def pyStrLt (t u : String) : Bool :=
  decide (t < u)

/-- The body of `visit_binary_expr` once both operands are evaluated.  The
fuel feeds the `str()` conversion used by `+`'s one-sided coercion and the
recursive `==` used by the equality operators. -/
def visit_binary_val (n : Nat) (op : BinOp) (l r : Value) (s : IState) :
    Res Value × IState :=
  match op with
  | .minus =>
    match toNum? l, toNum? r with
    | some x, some y => (.ok (x.sub y).toValue, s)
    | _, _ => (.errS ("Operands must be numbers: " ++ pyTypeName l ++ ", " ++ pyTypeName r), s)
  | .slash =>
    match toNum? l, toNum? r with
    | some x, some y =>
      if y.isZero then (.errS ("Division by zero."), s)
      else (.ok (x.div y).toValue, s)
    | _, _ => (.errS ("Operands must be numbers: " ++ pyTypeName l ++ ", " ++ pyTypeName r), s)
  | .star =>
    match toNum? l, toNum? r with
    | some x, some y => (.ok (x.mul y).toValue, s)
    | _, _ =>
      match l, toInt? r with
      | .str t, some k => (.ok (.str (strRepeat t k)), s)
      | .list lid, some k =>
        let (nid, s') := allocList s (listRepeat (getListH s lid) k)
        (.ok (.list nid), s')
      | _, _ =>
        (.errS ("Operands must be numbers or string/list and integer: " ++
          pyTypeName l ++ ", " ++ pyTypeName r), s)
  | .plus =>
    match toNum? l, toNum? r with
    | some x, some y => (.ok (x.add y).toValue, s)
    | _, _ =>
      match l, r with
      | .str t, .str u => (.ok (.str (t ++ u)), s)
      | .list l1, .list l2 =>
        let (nid, s') := allocList s (getListH s l1 ++ getListH s l2)
        (.ok (.list nid), s')
      | .str t, _ =>
        match pyToStr n true s r with
        | some u => (.ok (.str (t ++ u)), s)
        | none => (.hostE ("unmodelled-str"), s)
      | _, .str u =>
        match pyToStr n true s l with
        | some t => (.ok (.str (t ++ u)), s)
        | none => (.hostE ("unmodelled-str"), s)
      | _, _ =>
        (.errS ("Operands must be two numbers, two strings, or two lists: " ++
          pyTypeName l ++ ", " ++ pyTypeName r), s)
  | .modulo =>
    match toNum? l, toNum? r with
    | some x, some y =>
      if y.isZero then (.errS ("Modulo by zero."), s)
      else (.ok (x.mod y).toValue, s)
    | _, _ => (.errS ("Operands must be numbers: " ++ pyTypeName l ++ ", " ++ pyTypeName r), s)
  | .expo =>
    match toNum? l, toNum? r with
    | some x, some y =>
      match numPow x y with
      | .ok z => (.ok z.toValue, s)
      | .errS m => (.errS m, s)
      | .errB m => (.errB m, s)
      | .hostE m => (.hostE m, s)
      | .ret v => (.ret v, s)
      | .timeout => (.timeout, s)
    | _, _ => (.errS ("Operands must be numbers: " ++ pyTypeName l ++ ", " ++ pyTypeName r), s)
  | .gt => cmpVals l r s (fun x y => y.lt x) (fun t u => pyStrLt u t)
  | .ge => cmpVals l r s (fun x y => y.le x) (fun t u => !pyStrLt t u)
  | .lt => cmpVals l r s NumV.lt pyStrLt
  | .le => cmpVals l r s NumV.le (fun t u => !pyStrLt u t)
  | .bangEq =>
    match is_equal n s l r with
    | some b => (.ok (.bool (!b)), s)
    | none => (.hostE ("unmodelled-eq"), s)
  | .eqEq =>
    match is_equal n s l r with
    | some b => (.ok (.bool b), s)
    | none => (.hostE ("unmodelled-eq"), s)
where
  /-- `check_comparable_operands` followed by the comparison itself. -/
  cmpVals (l r : Value) (s : IState) (fn : NumV → NumV → Bool)
      (fs : String → String → Bool) : Res Value × IState :=
    match toNum? l, toNum? r with
    | some x, some y => (.ok (.bool (fn x y)), s)
    | _, _ =>
      match l, r with
      | .str t, .str u => (.ok (.bool (fs t u)), s)
      | _, _ =>
        (.errS ("Cannot compare " ++ pyTypeName l ++ " and " ++ pyTypeName r), s)

/-! ## Indexing (`visit_index_expr` / `visit_index_assign_expr`) -/

/-- Python `str()` of the index values that can appear inside the
range-error messages (always `int`-like there). -/
def intLikeStr : Value → String
  | .bool b => if b then "True" else "False"
  | .int n => toString n
  | v => pyTypeName v

/-- Python `str()` of a hashable value, `none` for the address-dependent
instance case. -/
def pyAtomStr : Value → Option String
  | .nil => some ("None")
  | .bool b => some (if b then "True" else "False")
  | .int n => some (toString n)
  | .float a b => some (pyFloatRepr a b)
  | .str t => some t
  | .func fd => some ("<function " ++ fd.decl.name ++ ">")
  | .builtin _ _ => some ("<native function>")
  | .classV c => some c.name
  | _ => none

/-- The body of `visit_index_expr` once object and index are evaluated.
Note that `isinstance(index, int)` accepts booleans (read as 0/1). -/
def visit_index_val (n : Nat) (s : IState) (obj idx : Value) : Res Value :=
  match obj with
  | .list lid =>
    match toInt? idx with
    | none => .errS ("List indices must be integers.")
    | some i =>
      let xs := getListH s lid
      if i < 0 ∨ (xs.length : Int) ≤ i then
        .errS ("List index out of range: " ++ intLikeStr idx)
      else .ok (xs.getD i.toNat .nil)
  | .dict did =>
    if unhashable idx then
      .hostE ("TypeError: unhashable type: '" ++ pyTypeName idx ++ "'")
    else
      match pyDictFind n s (getDictH s did) idx with
      | .ok (some v) => .ok v
      | .ok none =>
        match pyAtomStr idx with
        | some t => .errS ("Key not found in dictionary: " ++ t)
        | none => .hostE ("unmodelled-str")
      | .errS m => .errS m
      | .errB m => .errB m
      | .hostE m => .hostE m
      | .ret v => .ret v
      | .timeout => .timeout
  | .str t =>
    match toInt? idx with
    | none => .errS ("String indices must be integers.")
    | some i =>
      if i < 0 ∨ (t.length : Int) ≤ i then
        .errS ("String index out of range: " ++ intLikeStr idx)
      else .ok (.str (String.mk [t.data.getD i.toNat ' ']))
  | _ => .errS ("Cannot index into type " ++ pyTypeName obj)

/-- The body of `visit_index_assign_expr` once object, index and value are
evaluated: list assignment bounds-checks like reading does, dict assignment
upserts, anything else is not index-assignable. -/
def visit_index_assign_val (n : Nat) (s : IState) (obj idx v : Value) :
    Res Value × IState :=
  match obj with
  | .list lid =>
    match toInt? idx with
    | none => (.errS ("List indices must be integers."), s)
    | some i =>
      let xs := getListH s lid
      if i < 0 ∨ (xs.length : Int) ≤ i then
        (.errS ("List index out of range: " ++ intLikeStr idx), s)
      else (.ok v, setListH s lid (xs.set i.toNat v))
  | .dict did =>
    if unhashable idx then
      (.hostE ("TypeError: unhashable type: '" ++ pyTypeName idx ++ "'"), s)
    else
      match pyDictInsert n s (getDictH s did) idx v with
      | .ok l => (.ok v, setDictH s did l)
      | .errS m => (.errS m, s)
      | .errB m => (.errB m, s)
      | .hostE m => (.hostE m, s)
      | .ret w => (.ret w, s)
      | .timeout => (.timeout, s)
  | _ => (.errS ("Cannot assign to index of type " ++ pyTypeName obj), s)

/-! ## Property access (`visit_get_expr`, second definition in the source —
Python keeps the later one) -/

/-- The body of `visit_get_expr` once the object is evaluated. -/
def visit_get_val (s : IState) (ov : Value) (name : String) :
    Res Value × IState :=
  match ov with
  | .list lid =>
    if name = "append" then (.ok (.builtin 1 (.mAppend lid)), s)
    else if name = "pop" then (.ok (.builtin 0 (.mPop lid)), s)
    else if name = "length" then (.ok (.int (getListH s lid).length), s)
    else (.errS ("No such property '" ++ name ++ "' on list."), s)
  | .dict did =>
    if name = "length" then (.ok (.int (getDictH s did).length), s)
    else (.errS ("No such property '" ++ name ++ "' on dict."), s)
  | .str t =>
    if name = "length" then (.ok (.int t.length), s)
    else (.errS ("No such property '" ++ name ++ "' on str."), s)
  | .inst iid => instGet s iid name
  | _ => (.errS ("No such property '" ++ name ++ "' on " ++ pyTypeName ov ++ "."), s)

/-! ## The callable contract -/

/-- Which values carry a callable `call` attribute
(`callable(getattr(callee, "call", None))`): user functions, builtins and
classes. -/
def hasCallAttr : Value → Bool
  | .func _ => true
  | .builtin _ _ => true
  | .classV _ => true
  | _ => false

/-- The result of looking up and invoking `.arity()` on a value:
`Function.arity` returns the declared parameter count, `BuiltinFunction.arity`
the count fixed at construction.  `LoxClass` defines **no** `arity` method,
so the lookup fails (`none`, a host `AttributeError` at the call site). -/
def callArity? : Value → Option Nat
  | .func fd => some fd.decl.params.length
  | .builtin a _ => some a
  | _ => none

/-- Host behaviour of the builtin functions (`define_globals`, and the list
pseudo-method lambdas of `visit_get_expr`). -/
def builtinCall (fn : HostFn) (args : List Value) (s : IState) :
    Res Value × IState :=
  match fn with
  | .gAppend =>
    match args with
    | [.list lid, v] => (.ok (.list lid), setListH s lid (getListH s lid ++ [v]))
    | _ => (.errS ("append expects a list followed by a value"), s)
  | .gPop =>
    match args with
    | [.list lid] =>
      let xs := getListH s lid
      if xs.length = 0 then (.errS ("pop expects a non-empty list"), s)
      else (.ok (xs.getLast?.getD .nil), setListH s lid xs.dropLast)
    | _ => (.errS ("pop expects a non-empty list"), s)
  | .gLength =>
    match args with
    | [.list lid] => (.ok (.int (getListH s lid).length), s)
    | [.dict did] => (.ok (.int (getDictH s did).length), s)
    | [.str t] => (.ok (.int t.length), s)
    | _ => (.errS ("length expects a list, dictionary, or string"), s)
  | .mAppend lid =>
    match args with
    | v :: _ => (.ok .nil, setListH s lid (getListH s lid ++ [v]))
    | [] => (.hostE ("IndexError: list index out of range"), s)
  | .mPop lid =>
    let xs := getListH s lid
    if xs.length > 0 then (.ok (xs.getLast?.getD .nil), setListH s lid xs.dropLast)
    else (.ok .nil, s)

/-- Method-table construction in `visit_class_stmt`: a Python dict keyed by
method name, later declarations overwriting earlier ones. -/
def mkClassTable (methods : List FuncDecl) (closure : Nat) :
    List (String × FuncData) :=
  methods.foldl
    (fun tbl fd =>
      if tbl.any (fun p => p.1 = fd.name) then
        tbl.map (fun p => if p.1 = fd.name then (p.1, ⟨fd, closure⟩) else p)
      else tbl ++ [(fd.name, ⟨fd, closure⟩)])
    []

/-- Build the `LoxClass` value of `visit_class_stmt`. -/
def mkClass (name : String) (sup : Option LoxClass) (methods : List FuncDecl)
    (closure : Nat) : LoxClass :=
  .mk name sup (mkClassTable methods closure)

/-! ## The evaluator

One mutual block, structurally recursive on an explicit fuel parameter:
every recursive step, in any direction, consumes one unit.  Fuel exhaustion
is the artificial `Res.timeout`. -/

/-- Value of a literal node (`visit_literal_expr` returns the stored value). -/
def litToValue : LitVal → Value
  | .nilL => .nil
  | .boolL b => .bool b
  | .intL n => .int n
  | .floatL a b => .float a b
  | .strL t => .str t

set_option maxHeartbeats 2000000 in
mutual

/-- `Interpreter.evaluate` / the expression visitors. -/
def evalExpr : Nat → Expr → IState → Res Value × IState
  | 0, _, s => (.timeout, s)
  | _ + 1, .lit v, s => (.ok (litToValue v), s)
  | n + 1, .binary l op r, s =>
    match evalExpr n l s with
    | (.ok lv, s1) =>
      match evalExpr n r s1 with
      | (.ok rv, s2) => visit_binary_val n op lv rv s2
      | other => other
    | other => other
  | n + 1, .logical l isOr r, s =>
    match evalExpr n l s with
    | (.ok lv, s1) =>
      if isOr then
        if is_truthy s1 lv then (.ok lv, s1) else evalExpr n r s1
      else
        if !is_truthy s1 lv then (.ok lv, s1) else evalExpr n r s1
    | other => other
  | n + 1, .unary op e, s =>
    match evalExpr n e s with
    | (.ok v, s1) =>
      match op with
      | .bang => (.ok (.bool (!is_truthy s1 v)), s1)
      | .neg =>
        match toNum? v with
        | some x => (.ok x.negV.toValue, s1)
        | none => (.errS ("Operand must be a number: " ++ pyTypeName v), s1)
    | other => other
  | n + 1, .grouping e, s => evalExpr n e s
  | _ + 1, .var name, s => (lookup_variable s name, s)
  | n + 1, .assign name value, s =>
    match evalExpr n value s with
    | (.ok v, s1) => (.ok v, assign_variable s1 name v)
    | other => other
  | n + 1, .call callee args, s =>
    match evalExpr n callee s with
    | (.ok cv, s1) =>
      match evalExprs n args s1 with
      | (.ok argv, s2) =>
        if !hasCallAttr cv then
          (.errS ("Can only call functions and classes: " ++ pyTypeName cv), s2)
        else
          match callArity? cv with
          | none =>
            (.hostE ("AttributeError: 'LoxClass' object has no attribute 'arity'"), s2)
          | some ar =>
            if argv.length ≠ ar then
              (.errS ("Expected " ++ toString ar ++ " arguments but got " ++
                toString argv.length ++ "."), s2)
            else callValue n cv argv s2
      | (r, s2) => (r.castErr, s2)
    | other => other
  | n + 1, .get obj name, s =>
    match evalExpr n obj s with
    | (.ok ov, s1) => visit_get_val s1 ov name
    | other => other
  | n + 1, .set obj name value, s =>
    match evalExpr n obj s with
    | (.ok ov, s1) =>
      match evalExpr n value s1 with
      | (.ok v, s2) =>
        match ov with
        | .inst iid => (.ok v, instSet s2 iid name v)
        | _ => (.errS ("Only instances have fields."), s2)
      | other => other
    | other => other
  | n + 1, .listE elems, s =>
    match evalExprs n elems s with
    | (.ok vs, s1) =>
      let (lid, s2) := allocList s1 vs
      (.ok (.list lid), s2)
    | (r, s1) => (r.castErr, s1)
  | n + 1, .dictE pairs, s =>
    match evalDictItems n pairs [] s with
    | (.ok items, s1) =>
      let (did, s2) := allocDict s1 items
      (.ok (.dict did), s2)
    | (r, s1) => (r.castErr, s1)
  | n + 1, .indexE obj idx, s =>
    match evalExpr n obj s with
    | (.ok ov, s1) =>
      match evalExpr n idx s1 with
      | (.ok iv, s2) => (visit_index_val n s2 ov iv, s2)
      | other => other
    | other => other
  | n + 1, .indexAssignE obj idx value, s =>
    match evalExpr n obj s with
    | (.ok ov, s1) =>
      match evalExpr n idx s1 with
      | (.ok iv, s2) =>
        match evalExpr n value s2 with
        | (.ok v, s3) => visit_index_assign_val n s3 ov iv v
        | other => other
      | other => other
    | other => other
  | _ + 1, .thisE, s => (lookup_variable s "this", s)
  | _ + 1, .superE _, s =>
    (.hostE ("AttributeError: 'Interpreter' object has no attribute 'locals'"), s)
  | n + 1, .newE cname args, s =>
    match envGet s s.current cname with
    | .ok klass =>
      match evalExprs n args s with
      | (.ok argv, s1) =>
        if hasCallAttr klass then callValue n klass argv s1
        else (.errS ("'" ++ cname ++ "' is not a class."), s1)
      | (r, s1) => (r.castErr, s1)
    | _ => (.errS ("Undefined class '" ++ cname ++ "'."), s)

/-- Evaluate a list of argument expressions left to right. -/
def evalExprs : Nat → List Expr → IState → Res (List Value) × IState
  | 0, _, s => (.timeout, s)
  | _ + 1, [], s => (.ok [], s)
  | n + 1, e :: rest, s =>
    match evalExpr n e s with
    | (.ok v, s1) =>
      match evalExprs n rest s1 with
      | (.ok vs, s2) => (.ok (v :: vs), s2)
      | other => other
    | (r, s1) => (r.castErr, s1)

/-- Evaluate dictionary-literal items in order, rejecting unhashable keys
and inserting Python-style (`visit_dictionary_expr`). -/
def evalDictItems : Nat → List (Expr × Expr) → List (Value × Value) →
    IState → Res (List (Value × Value)) × IState
  | 0, _, _, s => (.timeout, s)
  | _ + 1, [], acc, s => (.ok acc, s)
  | n + 1, (ke, ve) :: rest, acc, s =>
    match evalExpr n ke s with
    | (.ok k, s1) =>
      match evalExpr n ve s1 with
      | (.ok v, s2) =>
        if unhashable k then
          (.errS ("Dictionary keys must be immutable (strings, numbers, booleans)."), s2)
        else
          match pyDictInsert n s2 acc k v with
          | .ok acc2 => evalDictItems n rest acc2 s2
          | .errS m => (.errS m, s2)
          | .errB m => (.errB m, s2)
          | .hostE m => (.hostE m, s2)
          | .ret w => (.ret w, s2)
          | .timeout => (.timeout, s2)
      | (r, s2) => (r.castErr, s2)
    | (r, s1) => (r.castErr, s1)

/-- `Interpreter.execute` / the statement visitors. -/
def execStmt : Nat → Stmt → IState → Res Unit × IState
  | 0, _, s => (.timeout, s)
  | n + 1, .exprS e, s =>
    match evalExpr n e s with
    | (.ok _, s1) => (.ok (), s1)
    | (r, s1) => (r.castErr, s1)
  | n + 1, .printS e, s =>
    match evalExpr n e s with
    | (.ok v, s1) =>
      match stringify n s1 v with
      | some t => (.ok (), { s1 with output := s1.output ++ [t] })
      | none => (.hostE ("unmodelled-str"), s1)
    | (r, s1) => (r.castErr, s1)
  | n + 1, .block stmts, s =>
    let (nid, s1) := allocEnv s ⟨[], some s.current⟩
    execute_block n stmts nid s1
  | n + 1, .ifS cond thenB elseB, s =>
    match evalExpr n cond s with
    | (.ok v, s1) =>
      if is_truthy s1 v then execStmt n thenB s1
      else
        match elseB with
        | some eb => execStmt n eb s1
        | none => (.ok (), s1)
    | (r, s1) => (r.castErr, s1)
  | n + 1, .whileS cond body, s => whileLoop n cond body s
  | _ + 1, .funDecl f, s =>
    (.ok (), envDefine s s.current f.name (.func ⟨f, s.current⟩))
  | n + 1, .retS value, s =>
    match value with
    | none => (.ret .nil, s)
    | some e =>
      match evalExpr n e s with
      | (.ok v, s1) => (.ret v, s1)
      | (r, s1) => (r.castErr, s1)
  | n + 1, .forEach varName iter body, s =>
    match evalExpr n iter s with
    | (.ok v, s1) =>
      match v with
      | .list lid => forList n varName lid 0 body s1
      | .str t => forVals n varName (t.data.map fun c => .str (String.mk [c])) body s1
      | .dict did => forVals n varName ((getDictH s1 did).map Prod.fst) body s1
      | _ => (.errS ("Can only iterate over lists, strings, and dictionaries."), s1)
    | (r, s1) => (r.castErr, s1)
  | _ + 1, .classS name superName methods, s =>
    let s1 := envDefine s s.current name .nil
    match superName with
    | none =>
      (.ok (), envDefine s1 s1.current name (.classV (mkClass name none methods s1.current)))
    | some sn =>
      match lookup_variable s1 sn with
      | .ok (.classV c) =>
        (.ok (), envDefine s1 s1.current name (.classV (mkClass name (some c) methods s1.current)))
      | .ok _ => (.errS ("Superclass must be a class."), s1)
      | .errS m => (.errS m, s1)
      | .errB m => (.errB m, s1)
      | .hostE m => (.hostE m, s1)
      | .ret w => (.ret w, s1)
      | .timeout => (.timeout, s1)

/-- Execute statements in order, stopping at the first non-normal outcome. -/
def execStmts : Nat → List Stmt → IState → Res Unit × IState
  | 0, _, s => (.timeout, s)
  | _ + 1, [], s => (.ok (), s)
  | n + 1, st :: rest, s =>
    match execStmt n st s with
    | (.ok _, s1) => execStmts n rest s1
    | other => other

/-- `Interpreter.execute_block`: switch the current-environment register to
`envId`, run the statements, and restore the previous register
unconditionally (the source's `try/finally`), whatever the outcome. -/
def execute_block : Nat → List Stmt → Nat → IState → Res Unit × IState
  | 0, _, _, s => (.timeout, s)
  | n + 1, stmts, envId, s =>
    let previous := s.current
    let p := execStmts n stmts { s with current := envId }
    (p.1, { p.2 with current := previous })

/-- Dispatch `value.call(interpreter, args)` for the three callable kinds. -/
def callValue : Nat → Value → List Value → IState → Res Value × IState
  | 0, _, _, s => (.timeout, s)
  | _ + 1, .builtin _ fn, args, s => builtinCall fn args s
  | n + 1, .func fd, args, s => funcCall n fd args s
  | n + 1, .classV c, args, s => klassCall n c args s
  | _ + 1, _, _, s => (.hostE ("not-callable"), s)

/-- `Function.call`: a fresh environment parented by the closure, parameters
bound positionally (`arguments[i]` raises a host `IndexError` when there are
fewer arguments than parameters — no evaluator path with an arity check can
reach that, but `new`-expressions skip the check), then the body runs as a
block and a `ReturnException` becomes the call's value; falling off the end
yields `nil`. -/
def funcCall : Nat → FuncData → List Value → IState → Res Value × IState
  | 0, _, _, s => (.timeout, s)
  | n + 1, fd, args, s =>
    let bound := (fd.decl.params.zip args).foldl (fun m p => assocSet m p.1 p.2) []
    let (nid, s1) := allocEnv s ⟨bound, some fd.closure⟩
    if args.length < fd.decl.params.length then
      (.hostE ("IndexError: list index out of range"), s1)
    else
      match execute_block n fd.decl.body nid s1 with
      | (.ret v, s2) => (.ok v, s2)
      | (.ok _, s2) => (.ok .nil, s2)
      | (r, s2) => (r.castErr, s2)

/-- `LoxClass.call`: allocate the instance, then, if `find_method` locates an
`init` anywhere in the superclass chain, bind it to the instance and invoke
it with the constructor arguments; the result is the new instance whatever
`init` returned. -/
def klassCall : Nat → LoxClass → List Value → IState → Res Value × IState
  | 0, _, _, s => (.timeout, s)
  | n + 1, c, args, s =>
    let (iid, s1) := allocInst s ⟨c, []⟩
    match c.find_method "init" with
    | none => (.ok (.inst iid), s1)
    | some m =>
      let (fd, s2) := bindMethod s1 m iid
      match funcCall n fd args s2 with
      | (.ok _, s3) => (.ok (.inst iid), s3)
      | (r, s3) => (r, s3)

/-- `visit_while_stmt`: re-evaluate the condition before every iteration. -/
def whileLoop : Nat → Expr → Stmt → IState → Res Unit × IState
  | 0, _, _, s => (.timeout, s)
  | n + 1, cond, body, s =>
    match evalExpr n cond s with
    | (.ok v, s1) =>
      if is_truthy s1 v then
        match execStmt n body s1 with
        | (.ok _, s2) => whileLoop n cond body s2
        | other => other
      else (.ok (), s1)
    | (r, s1) => (r.castErr, s1)

/-- For-each over a live heap list: the source's `for value in iterable`
iterates the list object itself, so the element count follows mutation. -/
def forList : Nat → String → Nat → Nat → Stmt → IState → Res Unit × IState
  | 0, _, _, _, _, s => (.timeout, s)
  | n + 1, varName, lid, i, body, s =>
    let xs := getListH s lid
    if i < xs.length then
      match forBody n varName (xs.getD i .nil) body s with
      | (.ok _, s1) => forList n varName lid (i + 1) body s1
      | other => other
    else (.ok (), s)

/-- For-each over a pre-extracted value list (string characters, dict keys:
the source snapshots dict keys via `list(iterable.keys())`). -/
def forVals : Nat → String → List Value → Stmt → IState → Res Unit × IState
  | 0, _, _, _, s => (.timeout, s)
  | _ + 1, _, [], _, s => (.ok (), s)
  | n + 1, varName, v :: rest, body, s =>
    match forBody n varName v body s with
    | (.ok _, s1) => forVals n varName rest body s1
    | other => other

/-- One for-each iteration: fresh child environment binding the loop
variable, body executed there, previous register restored unconditionally
(the source's `try/finally`). -/
def forBody : Nat → String → Value → Stmt → IState → Res Unit × IState
  | 0, _, _, _, s => (.timeout, s)
  | n + 1, varName, v, body, s =>
    let (nid, s1) := allocEnv s ⟨[(varName, v)], some s.current⟩
    let p := execStmt n body { s1 with current := nid }
    (p.1, { p.2 with current := s.current })

end

/-- The outcome of a whole run through `Interpreter.interpret`. -/
inductive RunResult where
  | finished
  | crashed (msg : String)
  | fuelOut

/-- `Interpreter.interpret`: execute the top-level statements in order inside
one `try` whose `except RuntimeError` clause names the **custom** error class
of `interpreter.py`; a caught error prints `Runtime error: ...` and ends the
run cleanly, while the builtin `RuntimeError` of `runtime.py`, any other host
exception and an escaping `ReturnException` leave the method uncaught and
crash the process. -/
def interpret (n : Nat) (prog : List Stmt) (s : IState) : RunResult × IState :=
  match execStmts n prog s with
  | (.ok _, s1) => (.finished, s1)
  | (.errS m, s1) =>
    (.finished, { s1 with output := s1.output ++ ["Runtime error: " ++ m] })
  | (.errB m, s1) => (.crashed ("RuntimeError: " ++ m), s1)
  | (.hostE m, s1) => (.crashed m, s1)
  | (.ret _, s1) => (.crashed ("ReturnException"), s1)
  | (.timeout, s1) => (.fuelOut, s1)

/-- The interpreter's initial state: a fresh globals environment populated by
`define_globals` with `append`, `pop` and `length`. -/
def initState : IState :=
  { envs := [⟨[("append", .builtin 2 .gAppend),
               ("pop", .builtin 1 .gPop),
               ("length", .builtin 1 .gLength)], none⟩],
    lists := [], dicts := [], insts := [], current := 0, output := [] }

/-! ## Claims -/

/-- C1: the claim says `super.method()` resolves starting at the statically
enclosing class's superclass, reaching the literal superclass's
implementation even in a 3-level chain.  The code cannot do this at all:
`visit_super_expr` reads `self.locals` and `Environment.get_at`, neither of
which exists anywhere in the source (`Interpreter.__init__` defines only
`globals` and `environment`; `Environment` has no `get_at`), and no `super`
binding is ever defined.  Every `super` expression therefore raises a host
`AttributeError`, and the 3-level-chain program the spec demands crashes
instead of reaching `A.m`. -/
theorem C1_super_dispatch_crashes :
    (∀ n m s, evalExpr (n + 1) (.superE m) s =
      (.hostE ("AttributeError: 'Interpreter' object has no attribute 'locals'"), s)) ∧
    (interpret 60 [
      .classS "A" none [.mk "m" [] [.retS (some (.lit (.intL 1)))]],
      .classS "B" (some "A") [.mk "m" [] [.retS (some (.call (.superE "m") []))]],
      .classS "C" (some "B") [.mk "m" [] [.retS (some (.call (.superE "m") []))]],
      .exprS (.call (.get (.newE "C" []) "m") [])] initState).1 =
      .crashed ("AttributeError: 'Interpreter' object has no attribute 'locals'") := by
  exact ⟨fun n m s => rfl, rfl⟩

/-- C2: the claim says every runtime error raised by a top-level statement —
explicitly including `UndefinedProperty` from instance property access — is
caught by `Interpreter.interpret`, reported, and the process exits cleanly.
The `except RuntimeError` clause in `interpret` names the custom
`RuntimeError` class defined in `interpreter.py`, but `LoxInstance.get` in
`runtime.py` raises the *builtin* `RuntimeError`, which that clause does not
match: accessing a missing property on an instance escapes `interpret` and
crashes the process.  (Errors raised inside `interpreter.py` itself, such as
an undefined-variable read, are indeed caught and reported cleanly, as the
second conjunct shows.) -/
theorem C2_undefined_property_escapes_interpret :
    (interpret 30 [.classS "A" none [],
        .exprS (.assign "x" (.newE "A" [])),
        .exprS (.get (.var "x") "p")] initState).1 =
      .crashed ("RuntimeError: Undefined property 'p'.") ∧
    interpret 30 [.exprS (.var "zzz")] initState =
      (.finished, { initState with output := ["Runtime error: Undefined variable 'zzz'."] }) := by
  exact ⟨rfl, rfl⟩

/-- C3 counterexample: the claim says assignment to a name not defined in
any scope fails with `UndefinedVariable` by default.  Instead, evaluating
`x = 5` in a fresh interpreter succeeds with value 5 and silently defines
`x` in the current (global) environment. -/
theorem C3_assignment_to_unbound_name_succeeds :
    evalExpr 5 (.assign "x" (.lit (.intL 5))) initState =
      (.ok (.int 5),
       { initState with envs := [⟨[("append", .builtin 2 .gAppend),
           ("pop", .builtin 1 .gPop), ("length", .builtin 1 .gLength),
           ("x", .int 5)], none⟩] }) := rfl

/-- C3 amended: when no scope in the chain binds the target name, the
evaluator's assignment path (`assign_variable`, called by
`visit_assign_expr`) auto-defines the name in the current environment and
the assignment expression yields the assigned value; this behaviour is
hard-coded (there is no configuration), while the strict
`UndefinedVariable` failure exists only in `Environment.assign`, which no
evaluator path calls. -/
theorem C3_unbound_assignment_autodefines (s : IState) (name : String) (v : Value)
    (h : locateFrom s s.current name = none) :
    assign_variable s name v = envDefine s s.current name v ∧
    envAssign s s.current name v = (.errS ("Undefined variable '" ++ name ++ "'."), s) ∧
    (∀ n lv, litToValue lv = v →
      evalExpr (n + 2) (.assign name (.lit lv)) s = (.ok v, envDefine s s.current name v)) := by
  refine ⟨?_, ?_, ?_⟩
  · unfold assign_variable
    rw [h]
  · unfold envAssign
    rw [h]
  · intro n lv hv
    show (Res.ok (litToValue lv), assign_variable s name (litToValue lv)) =
      (Res.ok v, envDefine s s.current name v)
    rw [hv]
    unfold assign_variable
    rw [h]

/-- C3 witness: instantiating the amended theorem at `x = 5` in the fresh
initial state. -/
theorem C3_unbound_assignment_autodefines_witness :
    assign_variable initState "x" (.int 5) = envDefine initState 0 "x" (.int 5) ∧
    envAssign initState 0 "x" (.int 5) = (.errS ("Undefined variable 'x'."), initState) ∧
    evalExpr 5 (.assign "x" (.lit (.intL 5))) initState =
      (.ok (.int 5), envDefine initState 0 "x" (.int 5)) := by
  have h := C3_unbound_assignment_autodefines initState "x" (.int 5) (by rfl)
  exact ⟨h.1, h.2.1, h.2.2 3 (.intL 5) rfl⟩

/-- C10: on an empty list, the global builtin `pop` raises the (caught)
custom runtime error `pop expects a non-empty list`, while the bound
pseudo-method obtained from property access (`[].pop`) returns `nil`
without error — the two entry points disagree exactly as claimed. -/
theorem C10_pop_entry_points_disagree :
    interpret 30 [.exprS (.call (.var "pop") [.listE []])] initState =
      (.finished,
       { initState with
           lists := [[]]
           output := ["Runtime error: pop expects a non-empty list"] }) ∧
    evalExpr 20 (.call (.get (.listE []) "pop") []) initState =
      (.ok .nil, { initState with lists := [[]] }) := by
  exact ⟨rfl, rfl⟩

/-- C4 counterexample: the claim quantifies over every call expression, but a
call expression whose callee is a class does not produce the `Expected ... 
arguments but got ...` runtime error on a count mismatch: `LoxClass` has no
`arity` method, so `visit_call_expr`'s `function.arity()` raises a host
`AttributeError` and the run crashes (`class A {}` has no `init`, so its
declared arity in the claim's sense is 0, yet `A(1)` crashes instead of
failing with the arity error). -/
theorem C4_class_callee_crashes_not_arity_error :
    (interpret 30 [.classS "A" none [],
        .exprS (.call (.var "A") [.lit (.intL 1)])] initState).1 =
      .crashed ("AttributeError: 'LoxClass' object has no attribute 'arity'") := rfl

/-- C4 amended: for every call expression whose callee evaluates to a
user-defined `Function` or a `BuiltinFunction`, an argument count different
from the callee's `arity()` fails with the custom runtime error naming the
expected and actual counts, and the state is exactly the state reached after
evaluating callee and arguments — no parameter is bound and no side effect
of the call body happens. -/
theorem C4_arity_mismatch_before_call (n : Nat) (callee : Expr) (args : List Expr)
    (s s1 s2 : IState) (cv : Value) (argv : List Value) (ar : Nat)
    (hc : evalExpr n callee s = (.ok cv, s1))
    (ha : evalExprs n args s1 = (.ok argv, s2))
    (har : callArity? cv = some ar)
    (hne : argv.length ≠ ar) :
    evalExpr (n + 1) (.call callee args) s =
      (.errS ("Expected " ++ toString ar ++ " arguments but got " ++
        toString argv.length ++ "."), s2) := by
  have hcall : hasCallAttr cv = true := by
    cases cv <;> simp_all [callArity?, hasCallAttr]
  simp only [evalExpr, hc, ha, hcall, har, Bool.not_true, Bool.false_eq_true, if_false]
  rw [if_pos hne]

/-- C4 witness: `f(1)` for a two-parameter function `f` fails with the arity
error and leaves the state untouched. -/
theorem C4_arity_mismatch_before_call_witness :
    evalExpr 4
      (.call (.var "f") [.lit (.intL 1)])
      ⟨[⟨[("f", .func ⟨.mk "f" ["a", "b"] [], 0⟩)], none⟩], [], [], [], 0, []⟩ =
      (.errS ("Expected 2 arguments but got 1."),
       ⟨[⟨[("f", .func ⟨.mk "f" ["a", "b"] [], 0⟩)], none⟩], [], [], [], 0, []⟩) := by
  exact C4_arity_mismatch_before_call 3 (.var "f") [.lit (.intL 1)]
    _ _ _ (.func ⟨.mk "f" ["a", "b"] [], 0⟩) [.int 1] 2 rfl rfl rfl (by decide)

/-- C5 counterexample: the claim says all three callable variants expose
`arity()`.  A `LoxClass` exposes `call` but no `arity` at all (`callArity?`
models the `arity` attribute lookup), and even a call with the
would-be-correct argument count (`A()`, no `init`, hence declared arity 0)
crashes with a host `AttributeError` rather than performing any arity
check. -/
theorem C5_class_lacks_arity :
    callArity? (.classV (.mk "A" none [])) = none ∧
    hasCallAttr (.classV (.mk "A" none [])) = true ∧
    (interpret 30 [.classS "A" none [],
        .exprS (.call (.var "A") [])] initState).1 =
      .crashed ("AttributeError: 'LoxClass' object has no attribute 'arity'") := by
  exact ⟨rfl, rfl, rfl⟩

/-- C5 amended: user-defined `Function`s expose `arity()` returning the
declared parameter count and `BuiltinFunction`s the count fixed at
construction, both alongside `call`; `LoxClass` exposes `call` but no
`arity()` operation. -/
theorem C5_arity_exposure_by_variant :
    (∀ fd : FuncData,
      callArity? (.func fd) = some fd.decl.params.length ∧ hasCallAttr (.func fd) = true) ∧
    (∀ (a : Nat) (fn : HostFn),
      callArity? (.builtin a fn) = some a ∧ hasCallAttr (.builtin a fn) = true) ∧
    (∀ c : LoxClass, callArity? (.classV c) = none ∧ hasCallAttr (.classV c) = true) := by
  exact ⟨fun fd => ⟨rfl, rfl⟩, fun a fn => ⟨rfl, rfl⟩, fun c => ⟨rfl, rfl⟩⟩

/-- C6 counterexample: the claim says the non-string operand of a one-sided
`+` is converted via the stringify rule (`"a" + nil` giving `"anil"`,
`"a" + true` giving `"atrue"`, `"a" + 3.0` giving `"a3"`).  The source uses
the host's `str()` instead: the results are `"aNone"`, `"aTrue"` and
`"a3.0"`, while stringify renders `nil` and `3` for the same operands. -/
theorem C6_plus_uses_host_str_not_stringify :
    evalExpr 5 (.binary (.lit (.strL "a")) .plus (.lit .nilL)) initState =
      (.ok (.str "aNone"), initState) ∧
    stringify 5 initState .nil = some ("nil") ∧
    evalExpr 5 (.binary (.lit (.strL "a")) .plus (.lit (.boolL true))) initState =
      (.ok (.str "aTrue"), initState) ∧
    evalExpr 5 (.binary (.lit (.strL "a")) .plus (.lit (.floatL 3 1))) initState =
      (.ok (.str "a3.0"), initState) ∧
    stringify 5 initState (.float 3 1) = some ("3") := by
  exact ⟨rfl, rfl, rfl, rfl, rfl⟩

/-- String values, for stating the one-sided-concatenation rule. -/
def isStrV : Value → Bool
  | .str _ => true
  | _ => false

/-- C6 amended: for every pair of operands where exactly one is a string,
`+` returns the concatenation of the string with the other operand converted
via the host language's `str()` (modelled by `pyToStr`, defined wherever the
conversion is address-independent), not via the stringify rule. -/
theorem C6_one_sided_plus_host_str (n : Nat) (s : IState) (t u : String) (v : Value)
    (hv : isStrV v = false) (hu : pyToStr n true s v = some u) :
    visit_binary_val n .plus (.str t) v s = (.ok (.str (t ++ u)), s) ∧
    visit_binary_val n .plus v (.str t) s = (.ok (.str (u ++ t)), s) := by
  cases v <;> simp_all [visit_binary_val, toNum?, isStrV, pyToStr]

/-- C6 witness: the amended rule at `"a" + nil` and `nil + "a"`. -/
theorem C6_one_sided_plus_host_str_witness :
    visit_binary_val 5 .plus (.str "a") .nil initState = (.ok (.str "aNone"), initState) ∧
    visit_binary_val 5 .plus .nil (.str "a") initState = (.ok (.str "Nonea"), initState) := by
  have h := C6_one_sided_plus_host_str 5 initState "a" "None" .nil rfl rfl
  exact ⟨h.1, h.2⟩


/-- Unfolding lemma for `klassCall` at positive fuel. -/
theorem klassCall_succ_unfold (n : Nat) (c : LoxClass) (args : List Value) (s : IState) :
    klassCall (n + 1) c args s =
      (match c.find_method "init" with
       | none => (Res.ok (Value.inst s.insts.length), (allocInst s ⟨c, []⟩).2)
       | some m =>
         match funcCall n (bindMethod (allocInst s ⟨c, []⟩).2 m s.insts.length).1 args
             (bindMethod (allocInst s ⟨c, []⟩).2 m s.insts.length).2 with
         | (Res.ok _, s3) => (Res.ok (Value.inst s.insts.length), s3)
         | (r, s3) => (r, s3)) := rfl

/-- C7: invoking a class as a constructor (`LoxClass.call`) always allocates
a fresh instance and returns exactly that instance whenever it returns at
all; with no `init` anywhere in the superclass chain the only state change is
the allocation, and when `find_method` locates an `init` it is bound to the
new instance (`bindMethod`) and invoked with the constructor's arguments,
its return value discarded in favour of the instance. -/
theorem C7_constructor_returns_new_instance (n : Nat) (c : LoxClass)
    (args : List Value) (s : IState) :
    (∀ v s2, klassCall (n + 1) c args s = (.ok v, s2) → v = .inst s.insts.length) ∧
    (c.find_method "init" = none →
      klassCall (n + 1) c args s = (.ok (.inst s.insts.length), (allocInst s ⟨c, []⟩).2)) ∧
    (∀ m, c.find_method "init" = some m →
      klassCall (n + 1) c args s =
        (match funcCall n (bindMethod (allocInst s ⟨c, []⟩).2 m s.insts.length).1 args
            (bindMethod (allocInst s ⟨c, []⟩).2 m s.insts.length).2 with
         | (.ok _, s3) => (.ok (.inst s.insts.length), s3)
         | (r, s3) => (r, s3))) := by
  have h2 : ∀ m, c.find_method "init" = some m →
      klassCall (n + 1) c args s =
        (match funcCall n (bindMethod (allocInst s ⟨c, []⟩).2 m s.insts.length).1 args
            (bindMethod (allocInst s ⟨c, []⟩).2 m s.insts.length).2 with
         | (.ok _, s3) => (.ok (.inst s.insts.length), s3)
         | (r, s3) => (r, s3)) := by
    intro m hm
    rw [klassCall_succ_unfold, hm]
  have h1 : c.find_method "init" = none →
      klassCall (n + 1) c args s = (.ok (.inst s.insts.length), (allocInst s ⟨c, []⟩).2) := by
    intro hm
    rw [klassCall_succ_unfold, hm]
  refine ⟨?_, h1, h2⟩
  intro v s2 h
  cases hm : c.find_method "init" with
  | none =>
    rw [h1 hm] at h
    simp_all
  | some m =>
    rw [h2 m hm] at h
    rcases hf : funcCall n (bindMethod (allocInst s ⟨c, []⟩).2 m s.insts.length).1 args
        (bindMethod (allocInst s ⟨c, []⟩).2 m s.insts.length).2 with ⟨r, s3⟩
    rw [hf] at h
    cases r <;> simp_all

/-- A class whose `init` takes no parameters and returns 42. -/
def c7class : LoxClass :=
  .mk "A" none [("init", ⟨.mk "init" [] [.retS (some (.lit (.intL 42)))], 0⟩)]

/-- C7 witness: constructing `c7class` yields the fresh instance 0 — not the
42 its `init` returns — while `init` ran (its `this` binding environment and
call environment are on the heap). -/
theorem C7_constructor_returns_new_instance_witness :
    klassCall 9 c7class [] initState =
      (.ok (.inst 0),
       { envs := [⟨[("append", .builtin 2 .gAppend),
            ("pop", .builtin 1 .gPop), ("length", .builtin 1 .gLength)], none⟩,
           ⟨[("this", .inst 0)], some 0⟩, ⟨[], some 1⟩],
         lists := [], dicts := [], insts := [⟨c7class, []⟩],
         current := 0, output := [] }) := by
  have h := (C7_constructor_returns_new_instance 8 c7class [] initState).2.2
    ⟨.mk "init" [] [.retS (some (.lit (.intL 42)))], 0⟩ rfl
  exact h.trans (by rfl)

/-- C8: a block statement executes its inner statements in a freshly created
child environment of the environment active at entry (empty bindings, parent
= the entry environment, allocated at the fresh heap index `s.envs.length`),
and the prior current-environment register is restored unconditionally: the
final register equals the entry register for every outcome — normal, error,
`return` unwinding, even fuel exhaustion — at every fuel level, both for the
block statement visitor and for `execute_block` itself. -/
theorem C8_block_fresh_env_and_restore (n : Nat) (stmts : List Stmt) (s : IState) :
    (execStmt n (.block stmts) s).2.current = s.current ∧
    (∀ envId, (execute_block n stmts envId s).2.current = s.current) ∧
    execStmt (n + 2) (.block stmts) s =
      (let p := execStmts n stmts
        { s with envs := s.envs ++ [⟨[], some s.current⟩], current := s.envs.length }
       (p.1, { p.2 with current := s.current })) := by
  refine ⟨?_, ?_, ?_⟩
  · rcases n with _ | _ | n <;> rfl
  · intro envId
    rcases n with _ | n <;> rfl
  · rfl

/-- C9 counterexample: the claim says a non-integer index into a List fails
with `TypeMismatch` and that an absent Map key fails with `KeyNotFound`.
Instead (a) a boolean index is accepted — `[10, 20][true]` evaluates to `20`,
because the host's `isinstance(index, int)` treats booleans as integers 0/1
— and (b) an (absent) List key into a Map raises the host's unhashable-type
`TypeError`, which is not the caught `KeyNotFound` runtime error. -/
theorem C9_bool_index_and_unhashable_key :
    evalExpr 9 (.indexE (.listE [.lit (.intL 10), .lit (.intL 20)]) (.lit (.boolL true)))
        initState =
      (.ok (.int 20), { initState with lists := [[.int 10, .int 20]] }) ∧
    evalExpr 9 (.indexE (.dictE []) (.listE [])) initState =
      (.hostE ("TypeError: unhashable type: 'list'"),
       { initState with dicts := [[]], lists := [[]] }) := by
  exact ⟨rfl, rfl⟩

/-- Values a Python index-assignment target accepts (lists and dicts). -/
def indexAssignable : Value → Bool
  | .list _ => true
  | .dict _ => true
  | _ => false

/-- C9 amended: once object and index are evaluated — for a List or String
object, an index that is neither an integer nor a boolean fails with the
`TypeMismatch`-class error (`... indices must be integers.`); integer and
boolean (0/1) indices outside `[0, length)` fail with the
`IndexOutOfRange`-class error; in-range ones return the element.  For a Map
object, a List or Map key raises the host's unhashable `TypeError`; an
absent hashable key fails with the `KeyNotFound`-class error; a present one
returns its value.  Index-assignment bounds-checks a List the same way, and
upserts for a Map (same unhashable caveat); a String target or any other
non-List/Map target fails with the `NotIndexable`-class error
(`Cannot assign to index of type ...`). -/
theorem C9_indexing_and_index_assignment (n : Nat) (s : IState) :
    (∀ lid idx, toInt? idx = none →
      visit_index_val n s (.list lid) idx = .errS ("List indices must be integers.")) ∧
    (∀ lid idx i, toInt? idx = some i → (i < 0 ∨ ((getListH s lid).length : Int) ≤ i) →
      visit_index_val n s (.list lid) idx =
        .errS ("List index out of range: " ++ intLikeStr idx)) ∧
    (∀ lid idx i, toInt? idx = some i → 0 ≤ i → i < ((getListH s lid).length : Int) →
      visit_index_val n s (.list lid) idx = .ok ((getListH s lid).getD i.toNat .nil)) ∧
    (∀ t idx, toInt? idx = none →
      visit_index_val n s (.str t) idx = .errS ("String indices must be integers.")) ∧
    (∀ t idx i, toInt? idx = some i → (i < 0 ∨ (t.length : Int) ≤ i) →
      visit_index_val n s (.str t) idx =
        .errS ("String index out of range: " ++ intLikeStr idx)) ∧
    (∀ (t : String) idx i, toInt? idx = some i → 0 ≤ i → i < (t.length : Int) →
      visit_index_val n s (.str t) idx = .ok (.str (String.mk [t.data.getD i.toNat ' ']))) ∧
    (∀ did k, unhashable k = true →
      visit_index_val n s (.dict did) k =
        .hostE ("TypeError: unhashable type: '" ++ pyTypeName k ++ "'")) ∧
    (∀ did k v, unhashable k = false →
      pyDictFind n s (getDictH s did) k = .ok (some v) →
      visit_index_val n s (.dict did) k = .ok v) ∧
    (∀ did k t, unhashable k = false →
      pyDictFind n s (getDictH s did) k = .ok none → pyAtomStr k = some t →
      visit_index_val n s (.dict did) k = .errS ("Key not found in dictionary: " ++ t)) ∧
    (∀ lid idx v, toInt? idx = none →
      visit_index_assign_val n s (.list lid) idx v =
        (.errS ("List indices must be integers."), s)) ∧
    (∀ lid idx i v, toInt? idx = some i → (i < 0 ∨ ((getListH s lid).length : Int) ≤ i) →
      visit_index_assign_val n s (.list lid) idx v =
        (.errS ("List index out of range: " ++ intLikeStr idx), s)) ∧
    (∀ lid idx i v, toInt? idx = some i → 0 ≤ i → i < ((getListH s lid).length : Int) →
      visit_index_assign_val n s (.list lid) idx v =
        (.ok v, setListH s lid ((getListH s lid).set i.toNat v))) ∧
    (∀ did k v, unhashable k = true →
      visit_index_assign_val n s (.dict did) k v =
        (.hostE ("TypeError: unhashable type: '" ++ pyTypeName k ++ "'"), s)) ∧
    (∀ did k v l, unhashable k = false →
      pyDictInsert n s (getDictH s did) k v = .ok l →
      visit_index_assign_val n s (.dict did) k v = (.ok v, setDictH s did l)) ∧
    (∀ obj idx v, indexAssignable obj = false →
      visit_index_assign_val n s obj idx v =
        (.errS ("Cannot assign to index of type " ++ pyTypeName obj), s)) := by
  refine ⟨?_, ?_, ?_, ?_, ?_, ?_, ?_, ?_, ?_, ?_, ?_, ?_, ?_, ?_, ?_⟩
  · intro lid idx h
    simp [visit_index_val, h]
  · intro lid idx i h hb
    simp only [visit_index_val, h]
    rw [if_pos hb]
  · intro lid idx i h h0 hl
    simp only [visit_index_val, h]
    rw [if_neg (by omega)]
  · intro t idx h
    simp [visit_index_val, h]
  · intro t idx i h hb
    simp only [visit_index_val, h]
    rw [if_pos hb]
  · intro t idx i h h0 hl
    simp only [visit_index_val, h]
    rw [if_neg (by omega)]
  · intro did k h
    simp [visit_index_val, h]
  · intro did k v h hf
    simp [visit_index_val, h, hf]
  · intro did k t h hf ha
    simp [visit_index_val, h, hf, ha]
  · intro lid idx v h
    simp [visit_index_assign_val, h]
  · intro lid idx i v h hb
    simp only [visit_index_assign_val, h]
    rw [if_pos hb]
  · intro lid idx i v h h0 hl
    simp only [visit_index_assign_val, h]
    rw [if_neg (by omega)]
  · intro did k v h
    simp [visit_index_assign_val, h]
  · intro did k v l h hi
    simp [visit_index_assign_val, h, hi]
  · intro obj idx v h
    cases obj <;> simp_all [indexAssignable, visit_index_assign_val]

/-- C9 witness: the amended rules at concrete inputs — a `nil` index into
`[10, 20]` is the integers-only error, `[10, 20][true]` reads element 1, a
missing string key reports `KeyNotFound`, and index-assigning into a string
is not indexable. -/
theorem C9_indexing_and_index_assignment_witness :
    visit_index_val 5 { initState with lists := [[.int 10, .int 20]] } (.list 0) .nil =
      .errS ("List indices must be integers.") ∧
    visit_index_val 5 { initState with lists := [[.int 10, .int 20]] } (.list 0) (.bool true) =
      .ok (.int 20) ∧
    visit_index_val 5 { initState with dicts := [[(.str "k", .int 1)]] } (.dict 0) (.str "a") =
      .errS ("Key not found in dictionary: a") ∧
    visit_index_assign_val 5 { initState with lists := [[.int 10, .int 20]] }
        (.str "ab") (.int 0) .nil =
      (.errS ("Cannot assign to index of type str"),
       { initState with lists := [[.int 10, .int 20]] }) := by
  refine ⟨?_, ?_, ?_, ?_⟩
  · exact (C9_indexing_and_index_assignment 5 _).1 0 .nil rfl
  · exact (C9_indexing_and_index_assignment 5 _).2.2.1 0 (.bool true) 1 rfl (by decide) (by decide)
  · exact (C9_indexing_and_index_assignment 5 _).2.2.2.2.2.2.2.2.1 0 (.str "a") "a" rfl rfl rfl
  · exact (C9_indexing_and_index_assignment 5 _).2.2.2.2.2.2.2.2.2.2.2.2.2.2 (.str "ab") (.int 0) .nil rfl
